import Mathlib

/-!
Verification of the mango-pesticide-detector client logic and of the
spec-described server decision rules.

The React client (`client/src`) is embedded shallowly: component state
becomes a structure, event handlers become state-transition functions,
and the browser's fetch outcomes become an inductive type.  The Flask
route `server/routes/detect.py` is not among the available source
files, so its two decision rules (model selection and mango-image
rejection) are modelled from the spec, as marked on their definitions.
-/

set_option maxRecDepth 4096

namespace MangoDetector

/-! ## Files and client-side validation (Upload.jsx, Compare.jsx) -/

/-- A browser `File` object, keeping the fields the client reads:
`name`, `type` (MIME type) and `size` in bytes. -/
structure JSFile where
  name : String
  type : String
  size : Nat
deriving DecidableEq, Repr

/-- The constant `MAX_BYTES = 5 * 1024 * 1024` (Upload.jsx line 18, Compare.jsx line 39). -/
def MAX_BYTES : Nat := 5 * 1024 * 1024

/-- The constant `ACCEPTED_TYPES` (Upload.jsx line 19, Compare.jsx line 40). -/
def ACCEPTED_TYPES : List String := ["image/jpeg", "image/png", "image/webp"]

/-- Function `validateFile` from Upload.jsx lines 21-26: returns the error
message, or the empty string when the file is acceptable. -/
def validateFile : Option JSFile → String
  | none => "No file selected"
  | some f =>
    if !(ACCEPTED_TYPES.contains f.type) then "Only JPG, PNG, or WEBP images are allowed."
    else if f.size > MAX_BYTES then "File is too large (max 5MB)."
    else ""

/-- Browser API `URL.createObjectURL`, modelled as producing a non-empty blob URL
derived from the file. -/
def createObjectURL (f : JSFile) : String := "blob:" ++ f.name

/-! ## The Upload component (Upload.jsx) -/

/-- The `data` object consumed on the success path of `onSubmit`
(Upload.jsx lines 95-99): `models` and `selection` are `Option`s so
that `some` models the JS truthiness test `data.models && data.selection`. -/
structure DetectData where
  label : String
  confidence : ℚ
  model_used : String
  models : Option String
  selection : Option String
deriving DecidableEq, Repr

/-- The `comparePayload` built at Upload.jsx line 97 and stored under
the sessionStorage key `lastCompare`. -/
structure ComparePayload where
  models : String
  selection : String
  finalLabel : String
  finalConfidence : ℚ
deriving DecidableEq, Repr

/-- Outcome of the `fetch('/api/detect')` call awaited in `onSubmit`
(Upload.jsx lines 85-94), one constructor per control path:
a thrown network/parse error with its message, a non-JSON response
body, a JSON response with a non-OK status and an optional `error`
field, or a JSON success payload. -/
inductive DetectOutcome
  | netError (msg : String)
  | nonJson (text : String)
  | httpError (errField : Option String)
  | success (d : DetectData)
deriving DecidableEq, Repr

/-- Holds exactly on the path that reaches `setResult` (Upload.jsx line 95). -/
def DetectOutcome.isSuccess : DetectOutcome → Bool
  | .success _ => true
  | _ => false

/-- The state of the `Upload` component (Upload.jsx lines 9-16),
together with the sessionStorage slot `lastCompare` and a ghost
counter `inflight` of pending `/api/detect` requests. -/
structure UploadState where
  file : Option JSFile
  preview : String
  result : Option (String × ℚ × String)
  fullCompare : Option ComparePayload
  loading : Bool
  error : String
  storage : Option ComparePayload
  inflight : Nat
deriving DecidableEq, Repr

/-- Initial state of the `Upload` component: all `useState` initialisers
(Upload.jsx lines 9-15), empty sessionStorage, no request in flight. -/
def initUploadState : UploadState :=
  { file := none, preview := "", result := none, fullCompare := none
    loading := false, error := "", storage := none, inflight := 0 }

/-- Function `applyFile` from Upload.jsx lines 28-45: result and error are
cleared; a validation failure resets the selected file and the preview
and shows the message; otherwise the file is kept and previewed. -/
def applyFile (s : UploadState) (f : Option JSFile) : UploadState :=
  if validateFile f ≠ "" then
    { s with result := none, error := validateFile f, file := none, preview := "" }
  else
    { s with
      result := none, error := "", file := f,
      preview := (match f with | some f => createObjectURL f | none => "") }

/-- The synchronous part of `onSubmit` up to and including the `fetch`
call (Upload.jsx lines 73-85): clear error and result; with no file,
set an error and return without issuing a request; otherwise set
`loading` and issue exactly one request (inflight + 1). -/
def onSubmitStart (s : UploadState) : UploadState :=
  match s.file with
  | none => { s with result := none, error := "Please select an image first." }
  | some _ => { s with result := none, error := "", loading := true, inflight := s.inflight + 1 }

/-- The message of the error thrown on each non-success path of
`onSubmit` (Upload.jsx lines 92 and 94, plus a thrown fetch's own
message). -/
def thrownMessage : DetectOutcome → String
  | .netError m => m
  | .nonJson t => if t.take 200 = "" then "Non-JSON response from server" else t.take 200
  | .httpError (some e) => if e = "" then "Request failed" else e
  | .httpError none => "Request failed"
  | .success _ => ""

/-- The `catch` handler of `onSubmit` (Upload.jsx line 102):
`(err && err.message) ? err.message : 'Request failed'`. -/
def caughtMessage (m : String) : String :=
  if m = "" then "Request failed" else m

/-- The continuation of `onSubmit` after the response arrives
(Upload.jsx lines 86-105): the success path sets `result` and, when
`models` and `selection` are present, `fullCompare` and the
sessionStorage slot; every throwing path is caught and sets `error`;
the `finally` clause clears `loading`, and the one pending request is
consumed. -/
def onSubmitFinish (s : UploadState) (o : DetectOutcome) : UploadState :=
  match o with
  | .success d =>
    match d.models, d.selection with
    | some ms, some sel =>
      { s with
        result := some (d.label, d.confidence, d.model_used),
        fullCompare := some ⟨ms, sel, d.label, d.confidence⟩,
        storage := some ⟨ms, sel, d.label, d.confidence⟩,
        loading := false, inflight := s.inflight - 1 }
    | _, _ =>
      { s with
        result := some (d.label, d.confidence, d.model_used),
        loading := false, inflight := s.inflight - 1 }
  | o =>
    { s with
      error := caughtMessage (thrownMessage o),
      loading := false, inflight := s.inflight - 1 }

/-- Function `reset` from Upload.jsx lines 108-114. -/
def reset (s : UploadState) : UploadState :=
  { s with file := none, preview := "", result := none, error := "" }

/-- User-visible events of the Upload page.  `submitClick` carries the
backend-health flags that feed the submit button's `disabled`
attribute (Upload.jsx line 185). -/
inductive UEvent
  | submitClick (online checking : Bool)
  | response (o : DetectOutcome)
  | fileChange (f : Option JSFile)
  | resetClick
deriving DecidableEq, Repr

/-- One step of the Upload page.  `none` means the event cannot fire:
a submit click is impossible while the button is disabled
(`disabled={loading || !online || checking}`, Upload.jsx line 185), and
a response can only arrive for a pending request. -/
def stepU (s : UploadState) : UEvent → Option UploadState
  | .submitClick online checking =>
    if s.loading || !online || checking then none
    else some (onSubmitStart s)
  | .response o =>
    if s.inflight = 0 then none
    else some (onSubmitFinish s o)
  | .fileChange f => some (applyFile s f)
  | .resetClick => some (reset s)

/-- States of the Upload page reachable from the initial render. -/
inductive ReachableU : UploadState → Prop
  | init : ReachableU initUploadState
  | step {s e s'} : ReachableU s → stepU s e = some s' → ReachableU s'

/-! ## The Compare page (Compare.jsx) -/

/-- The state of the `Compare` page (Compare.jsx lines 19-23). -/
structure CompareState where
  file : Option JSFile
  preview : String
  loading : Bool
  error : String
  result : Option ComparePayload
deriving DecidableEq, Repr

/-- Function `onFile` from Compare.jsx lines 42-56.  Unlike `applyFile` in the
Upload component, a failing type or size check only sets `error` and
returns, leaving `file` and `preview` as they were. -/
def onFile (s : CompareState) (f : Option JSFile) : CompareState :=
  match f with
  | none => { s with error := "", result := none, file := none, preview := "" }
  | some f =>
    if !(ACCEPTED_TYPES.contains f.type) then
      { s with error := "Only JPG, PNG, or WEBP images are allowed.", result := none }
    else if f.size > MAX_BYTES then
      { s with error := "File is too large (max 5MB).", result := none }
    else
      { s with error := "", result := none, file := some f, preview := createObjectURL f }

/-- Initial state of the `Compare` page: the `useState` initialisers
(Compare.jsx lines 19-23). -/
def initCompareState : CompareState :=
  { file := none, preview := "", loading := false, error := "", result := none }

/-- The `useEffect` of Compare.jsx lines 26-37: a payload passed via
router state wins and is written back to sessionStorage; otherwise the
saved `lastCompare` payload, if any, is loaded.  Returns the new page
state together with the new sessionStorage contents. -/
def loadCompareResult (passed : Option ComparePayload) (storage : Option ComparePayload)
    (s : CompareState) : CompareState × Option ComparePayload :=
  match passed with
  | some p => ({ s with result := some p }, some p)
  | none =>
    match storage with
    | some p => ({ s with result := some p }, storage)
    | none => (s, storage)

/-! ## The backend-health hook (useBackendHealth, src/unnamed/part_001) -/

/-- The state returned by `useBackendHealth`. -/
structure HealthState where
  online : Bool
  modelPresent : Bool
  checking : Bool
deriving DecidableEq, Repr

/-- The three `useState` initialisers of the hook (lines 4-6). -/
def initHealthState : HealthState :=
  { online := false, modelPresent := false, checking := true }

/-- Outcome of the `fetch('/api/health')` call inside `check`:
either the fetch threw, or a response arrived with status flag `ok`
and a JSON body whose parse either threw (`none`) or produced the
truthiness of the `model_present` field (`some mp`). -/
inductive FetchOutcome
  | netError
  | response (ok : Bool) (json : Option Bool)
deriving DecidableEq, Repr

/-- The `check` function of the hook (lines 8-21): a thrown fetch, a
non-OK status or a JSON parse failure all land in the `catch` and set
both flags false; on success `online` becomes true and `modelPresent`
the truthiness of `model_present`; `finally` clears `checking`. -/
def check : FetchOutcome → HealthState
  | .netError => { online := false, modelPresent := false, checking := false }
  | .response ok json =>
    if !ok then { online := false, modelPresent := false, checking := false }
    else
      match json with
      | none => { online := false, modelPresent := false, checking := false }
      | some mp => { online := true, modelPresent := mp, checking := false }

/-- Hook states reachable after any sequence of `check` executions.
The interval timer only re-runs `check`, whose result does not depend
on the previous state. -/
inductive ReachableH : HealthState → Prop
  | init : ReachableH initHealthState
  | step (o : FetchOutcome) {s : HealthState} : ReachableH s → ReachableH (check o)

/-- The status text of `HealthBadge` (HealthBadge.jsx line 8). -/
def healthBadgeText (s : HealthState) : String :=
  if s.checking then "Checking…"
  else if s.online then
    (if s.modelPresent then "API: Online • Model: OK" else "API: Online • Model: Missing")
  else "API: Offline"

/-! ## The accuracy chart (ModelComparisonChart.jsx) and selection detail -/

/-- The JSON payload of `/api/models/comparison` as read by
`ModelComparisonChart`: the three `models.*.accuracy` fields (absent
or falsy modelled as `none`) and `best.name`. -/
structure ComparisonAPI where
  cnn_accuracy : Option ℚ
  svm_accuracy : Option ℚ
  rf_accuracy : Option ℚ
  best_name : Option String
deriving DecidableEq, Repr

/-- The bar values of the accuracy chart
(ModelComparisonChart.jsx lines 45-58): `(accuracy || 0) * 100` per model. -/
def chartAcc (p : ComparisonAPI) : ℚ × ℚ × ℚ :=
  ((p.cnn_accuracy.getD 0) * 100, (p.svm_accuracy.getD 0) * 100, (p.rf_accuracy.getD 0) * 100)

/-- The validation accuracies rendered in the Compare page's selection
detail (Compare.jsx line 146): `selection.detail.*_acc * 100`. -/
def detailAccLine (cnn_acc svm_acc rf_acc : ℚ) : ℚ × ℚ × ℚ :=
  (cnn_acc * 100, svm_acc * 100, rf_acc * 100)

/-- The proposition that the validation-accuracy metric plays no role
in the rendered output beyond determining the selected model: two
comparison payloads naming the same best model would always render the
same chart bars. -/
def accOnlySelectionRole : Prop :=
  ∀ p q : ComparisonAPI, p.best_name = q.best_name → chartAcc p = chartAcc q

/-! ## Server-side decision rules (server/routes/detect.py, absent from
the available sources; modelled from the spec) -/

/-- The three classifiers the backend runs. -/
inductive ModelName
  | cnn | svm | random_forest
deriving DecidableEq, Repr

/-- One model's numbers for a given image: its precomputed validation
accuracy and its confidence on this image. -/
structure ModelEval where
  acc : ℚ
  conf : ℚ
deriving DecidableEq, Repr

/-- Lookup of a model's numbers by name. -/
def evalOf (c s r : ModelEval) : ModelName → ModelEval
  | .cnn => c
  | .svm => s
  | .random_forest => r

/-- Modelled from the spec: the selection comparison of the missing
`server/routes/detect.py` — "choose the model with highest validation
accuracy; break ties by highest confidence on this image".  Keeps the
right candidate exactly when it is lexicographically strictly better. -/
def pickBetter (x y : ModelName × ModelEval) : ModelName × ModelEval :=
  if x.2.acc < y.2.acc ∨ (x.2.acc = y.2.acc ∧ x.2.conf < y.2.conf) then y else x

/-- Modelled from the spec: the model-selection rule of the missing
`server/routes/detect.py`, folded over the three candidates. -/
def selectBest (c s r : ModelEval) : ModelName :=
  (pickBetter (pickBetter (ModelName.cnn, c) (ModelName.svm, s)) (ModelName.random_forest, r)).1

/-- Lexicographic dominance on (validation accuracy, confidence): the
order in which the spec's selection rule ranks the candidates. -/
def lexLE (x y : ModelEval) : Prop :=
  x.acc ≤ y.acc ∧ (x.acc = y.acc → x.conf ≤ y.conf)

/-- Modelled from the spec: `_validate_mango_image` of the missing
`server/routes/detect.py` — "reject if max confidence < 50% or average
confidence < 40%" (confidences as fractions in [0,1], README shows
`threshold=0.50`).  Returns `true` when the image passes as a mango. -/
def validateMangoImage (cnn_conf svm_conf rf_conf : ℚ) : Bool :=
  let max_conf := max cnn_conf (max svm_conf rf_conf)
  let avg_conf := (cnn_conf + svm_conf + rf_conf) / 3
  if max_conf < 1/2 then false
  else if avg_conf < 2/5 then false
  else true

/-- Modelled from the spec: the detection outcome of the missing
`/api/detect` route — `none` when the image is rejected as not a
mango, otherwise the label and confidence. -/
def detect (label : String) (cnn_conf svm_conf rf_conf conf : ℚ) : Option (String × ℚ) :=
  if validateMangoImage cnn_conf svm_conf rf_conf then some (label, conf) else none

/-! ## Concrete instances used in witnesses and counterexamples -/

/-- A valid upload: a small PNG. -/
def mfile : JSFile := { name := "mango.png", type := "image/png", size := 2048 }

/-- An invalid upload: a GIF, whose MIME type is not accepted. -/
def gifFile : JSFile := { name := "anim.gif", type := "image/gif", size := 2048 }

/-- The Upload page with a selected file and one request in flight. -/
def sPending : UploadState :=
  { initUploadState with file := some mfile, loading := true, inflight := 1 }

/-- A successful `/api/detect` payload carrying the per-model breakdown. -/
def dOK : DetectData :=
  { label := "organic", confidence := 87, model_used := "cnn"
    models := some "models-json", selection := some "selection-json" }

/-- A `/api/models/comparison` payload: perfect accuracies, best = cnn. -/
def p0 : ComparisonAPI :=
  { cnn_accuracy := some 1, svm_accuracy := some 1, rf_accuracy := some 1
    best_name := some "cnn" }

/-- Same best model as `p0` but a different CNN accuracy. -/
def q0 : ComparisonAPI :=
  { cnn_accuracy := some 0, svm_accuracy := some 1, rf_accuracy := some 1
    best_name := some "cnn" }

/-! ## Theorems -/

lemma lexLE_trans {x y z : ModelEval} (hxy : lexLE x y) (hyz : lexLE y z) : lexLE x z := by
  obtain ⟨h1, h2⟩ := hxy
  obtain ⟨h3, h4⟩ := hyz
  refine ⟨le_trans h1 h3, fun he => ?_⟩
  have hyx : y.acc ≤ x.acc := he ▸ h3
  have hxy' : x.acc = y.acc := le_antisymm h1 hyx
  exact le_trans (h2 hxy') (h4 (hxy' ▸ he))

lemma lexLE_pickBetter_left (x y : ModelName × ModelEval) : lexLE x.2 (pickBetter x y).2 := by
  unfold pickBetter
  split_ifs with h
  · rcases h with h | ⟨h1, h2⟩
    · exact ⟨le_of_lt h, fun he => absurd he (ne_of_lt h)⟩
    · exact ⟨le_of_eq h1, fun _ => le_of_lt h2⟩
  · exact ⟨le_refl _, fun _ => le_refl _⟩

lemma lexLE_pickBetter_right (x y : ModelName × ModelEval) : lexLE y.2 (pickBetter x y).2 := by
  unfold pickBetter
  split_ifs with h
  · exact ⟨le_refl _, fun _ => le_refl _⟩
  · push_neg at h
    obtain ⟨h1, h2⟩ := h
    exact ⟨h1, fun he => h2 he.symm⟩

lemma pickBetter_eq_or (x y : ModelName × ModelEval) : pickBetter x y = x ∨ pickBetter x y = y := by
  unfold pickBetter
  split_ifs <;> simp

lemma selectBest_evalOf (c s r : ModelEval) :
    evalOf c s r (selectBest c s r) =
      (pickBetter (pickBetter (ModelName.cnn, c) (ModelName.svm, s)) (ModelName.random_forest, r)).2 := by
  rcases pickBetter_eq_or (ModelName.cnn, c) (ModelName.svm, s) with h1 | h1 <;>
    rcases pickBetter_eq_or (pickBetter (ModelName.cnn, c) (ModelName.svm, s))
      (ModelName.random_forest, r) with h2 | h2 <;>
    (simp only [selectBest]; rw [h2]; (try rw [h1]); simp [evalOf])

/-- Claim C1: for every image, the backend (modelled from the spec)
selects the model with the highest precomputed validation accuracy,
and ties on validation accuracy are broken by the highest confidence
on that image: every model's accuracy is at most the selected model's,
and any model whose accuracy equals the selected one's has confidence
at most the selected model's. -/
theorem selectBest_highest_acc_tie_conf (c s r : ModelEval) (m : ModelName) :
    (evalOf c s r m).acc ≤ (evalOf c s r (selectBest c s r)).acc ∧
    ((evalOf c s r m).acc = (evalOf c s r (selectBest c s r)).acc →
      (evalOf c s r m).conf ≤ (evalOf c s r (selectBest c s r)).conf) := by
  have key : lexLE (evalOf c s r m) (evalOf c s r (selectBest c s r)) := by
    rw [selectBest_evalOf]
    cases m with
    | cnn => exact lexLE_trans (lexLE_pickBetter_left _ _) (lexLE_pickBetter_left _ _)
    | svm => exact lexLE_trans (lexLE_pickBetter_right _ _) (lexLE_pickBetter_left _ _)
    | random_forest => exact lexLE_pickBetter_right _ _
  exact key

/-- Witness for C1 at a concrete tie: CNN and SVM share the top
accuracy 9, SVM has the higher confidence, so the selected model's
confidence dominates CNN's. -/
theorem selectBest_highest_acc_tie_conf_witness :
    (evalOf ⟨9, 5⟩ ⟨9, 7⟩ ⟨8, 9⟩ ModelName.cnn).conf ≤
      (evalOf ⟨9, 5⟩ ⟨9, 7⟩ ⟨8, 9⟩ (selectBest ⟨9, 5⟩ ⟨9, 7⟩ ⟨8, 9⟩)).conf :=
  (selectBest_highest_acc_tie_conf ⟨9, 5⟩ ⟨9, 7⟩ ⟨8, 9⟩ ModelName.cnn).2 (by decide)

lemma validateMangoImage_iff (c s r : ℚ) :
    validateMangoImage c s r = true ↔
      ¬(max c (max s r) < 1/2 ∨ (c + s + r) / 3 < 2/5) := by
  unfold validateMangoImage
  dsimp only
  split_ifs with h1 h2
  · exact iff_of_false (by simp) (not_not_intro (Or.inl h1))
  · exact iff_of_false (by simp) (not_not_intro (Or.inr h2))
  · exact iff_of_true rfl (not_or.mpr ⟨h1, h2⟩)

/-- Claim C2: detection (modelled from the spec) rejects the uploaded
image as not a mango exactly when the maximum confidence over the
three models is below 50% or their average confidence is below 40%,
and otherwise returns the label and confidence. -/
theorem detect_rejects_iff (label : String) (c s r conf : ℚ) :
    (detect label c s r conf = none ↔
      (max c (max s r) < 1/2 ∨ (c + s + r) / 3 < 2/5)) ∧
    (detect label c s r conf = some (label, conf) ↔
      ¬(max c (max s r) < 1/2 ∨ (c + s + r) / 3 < 2/5)) := by
  have hv := validateMangoImage_iff c s r
  unfold detect
  by_cases hb : validateMangoImage c s r = true
  · have hr := hv.mp hb
    rw [if_pos hb]
    exact ⟨iff_of_false (by simp) hr, iff_of_true rfl hr⟩
  · have hr : max c (max s r) < 1/2 ∨ (c + s + r) / 3 < 2/5 := by
      by_contra hc
      exact hb (hv.mpr hc)
    rw [if_neg hb]
    exact ⟨iff_of_true rfl hr, iff_of_false (by simp) (not_not_intro hr)⟩

/-- Claim C3: in both the Upload form and the Compare page, a selected
file is rejected with an error message exactly when its MIME type is
not image/jpeg, image/png or image/webp, or its size exceeds
5*1024*1024 bytes; a file passing both checks is accepted with no
error. -/
theorem fileValidation_rejects_iff (su : UploadState) (sc : CompareState) (f : JSFile) :
    (validateFile (some f) ≠ "" ↔ (f.type ∉ ACCEPTED_TYPES ∨ f.size > MAX_BYTES)) ∧
    ((onFile sc (some f)).error ≠ "" ↔ (f.type ∉ ACCEPTED_TYPES ∨ f.size > MAX_BYTES)) ∧
    (validateFile (some f) = "" →
      (applyFile su (some f)).file = some f ∧ (applyFile su (some f)).error = "" ∧
      (onFile sc (some f)).file = some f ∧ (onFile sc (some f)).error = "") := by
  unfold applyFile onFile validateFile
  by_cases ht : ACCEPTED_TYPES.contains f.type
  · have htm : f.type ∈ ACCEPTED_TYPES := by simpa using ht
    by_cases hs : f.size > MAX_BYTES
    · simp [ht, htm, hs]
    · simp [ht, htm, hs]
  · have htm : f.type ∉ ACCEPTED_TYPES := by simpa using ht
    simp [ht, htm]

/-- Witness for C3: a 2 KB PNG passes both checks and is accepted by
both pages with no error. -/
theorem fileValidation_rejects_iff_witness :
    (applyFile initUploadState (some mfile)).file = some mfile ∧
      (onFile initCompareState (some mfile)).error = "" :=
  ⟨((fileValidation_rejects_iff initUploadState initCompareState mfile).2.2 (by decide)).1,
   ((fileValidation_rejects_iff initUploadState initCompareState mfile).2.2 (by decide)).2.2.2⟩

/-- Claim C4: one execution of the health check — a thrown fetch or a
non-OK status (or an unparsable body) sets both `online` and
`modelPresent` to false; a successful fetch sets `online` true and
`modelPresent` to the truthiness of the `model_present` field, and a
present backend with missing models is surfaced by the health badge as
a flag, not an error. -/
theorem useBackendHealth_check_flags (j : Option Bool) (mp : Bool) :
    check FetchOutcome.netError =
      { online := false, modelPresent := false, checking := false } ∧
    check (FetchOutcome.response false j) =
      { online := false, modelPresent := false, checking := false } ∧
    check (FetchOutcome.response true (some mp)) =
      { online := true, modelPresent := mp, checking := false } ∧
    healthBadgeText (check (FetchOutcome.response true (some false))) =
      "API: Online • Model: Missing" :=
  ⟨rfl, rfl, rfl, rfl⟩

lemma applyFile_frame (s : UploadState) (f : Option JSFile) :
    (applyFile s f).loading = s.loading ∧ (applyFile s f).inflight = s.inflight := by
  unfold applyFile
  split_ifs <;> exact ⟨rfl, rfl⟩

lemma onSubmitFinish_frame (s : UploadState) (o : DetectOutcome) :
    (onSubmitFinish s o).loading = false ∧ (onSubmitFinish s o).inflight = s.inflight - 1 := by
  cases o with
  | success d =>
    obtain ⟨l, cf, mu, ms, sel⟩ := d
    cases ms <;> cases sel <;> exact ⟨rfl, rfl⟩
  | netError m => exact ⟨rfl, rfl⟩
  | nonJson t => exact ⟨rfl, rfl⟩
  | httpError e => exact ⟨rfl, rfl⟩

/-- Claim C5 counterexample: with no file selected, a submit click on
the enabled button completes the submit handler without issuing any
request (the in-flight count stays 0), so a user submit action does
not always issue exactly one `/api/detect` request. -/
theorem uploadSubmit_zero_requests_cex :
    stepU initUploadState (UEvent.submitClick true false) = some (onSubmitStart initUploadState) ∧
    (onSubmitStart initUploadState).inflight = initUploadState.inflight ∧
    (onSubmitStart initUploadState).error = "Please select an image first." :=
  ⟨rfl, rfl, rfl⟩

/-- Claim C5 (amended): each submit action issues at most one request
to `/api/detect` — exactly one when a file is selected and none
otherwise; while a request is in flight the submit button is disabled,
so in every reachable state of the Upload page the number of in-flight
requests is 1 while loading and 0 otherwise; and completing a request
never issues another (no retry on failure). -/
theorem uploadSubmit_single_flight :
    (∀ s, ReachableU s → s.inflight = (if s.loading = true then 1 else 0)) ∧
    (∀ s f, s.file = some f →
      (onSubmitStart s).inflight = s.inflight + 1 ∧ (onSubmitStart s).loading = true) ∧
    (∀ s, s.file = none →
      (onSubmitStart s).inflight = s.inflight ∧ (onSubmitStart s).loading = s.loading) ∧
    (∀ s o, (onSubmitFinish s o).inflight = s.inflight - 1 ∧
      (onSubmitFinish s o).loading = false) := by
  refine ⟨?_, ?_, ?_, ?_⟩
  · intro s h
    induction h with
    | init => rfl
    | @step s e s' hr heq ih =>
      cases e with
      | submitClick onl chk =>
        simp only [stepU] at heq
        by_cases hc : (s.loading || !onl || chk) = true
        · rw [if_pos hc] at heq
          simp at heq
        · rw [if_neg hc] at heq
          cases heq
          have hl : s.loading = false := by
            cases hL : s.loading
            · rfl
            · exact absurd (by simp [hL]) hc
          have h0 : s.inflight = 0 := by rw [ih, hl]; rfl
          unfold onSubmitStart
          cases hf : s.file <;> simp [h0, hl]
      | response o =>
        simp only [stepU] at heq
        by_cases hc : s.inflight = 0
        · rw [if_pos hc] at heq
          simp at heq
        · rw [if_neg hc] at heq
          cases heq
          obtain ⟨hfl, hfi⟩ := onSubmitFinish_frame s o
          have h1 : s.inflight = 1 := by
            cases hL : s.loading
            · rw [ih, hL] at hc; simp at hc
            · rw [ih, hL]; rfl
          rw [hfl, hfi, h1]
          rfl
      | fileChange f =>
        simp only [stepU] at heq
        cases heq
        obtain ⟨h1, h2⟩ := applyFile_frame s f
        rw [h1, h2]
        exact ih
      | resetClick =>
        simp only [stepU] at heq
        cases heq
        exact ih
  · intro s f hf
    unfold onSubmitStart
    rw [hf]
    exact ⟨rfl, rfl⟩
  · intro s hf
    unfold onSubmitStart
    rw [hf]
    exact ⟨rfl, rfl⟩
  · intro s o
    exact ⟨(onSubmitFinish_frame s o).2, (onSubmitFinish_frame s o).1⟩

/-- Witness for C5 (amended): the state reached by selecting a valid
file and clicking submit is reachable, and there the invariant gives
one request in flight while loading. -/
theorem uploadSubmit_single_flight_witness :
    (onSubmitStart (applyFile initUploadState (some mfile))).inflight =
      (if (onSubmitStart (applyFile initUploadState (some mfile))).loading = true then 1 else 0) :=
  uploadSubmit_single_flight.1 _
    (@ReachableU.step (applyFile initUploadState (some mfile))
      (UEvent.submitClick true false)
      (onSubmitStart (applyFile initUploadState (some mfile)))
      (@ReachableU.step initUploadState (UEvent.fileChange (some mfile))
        (applyFile initUploadState (some mfile)) ReachableU.init (by decide))
      (by decide))

/-- Claim C6 counterexample: completing a successful `/api/detect`
request that carries the per-model breakdown writes the comparison
payload — including the prediction's label and confidence — to the
sessionStorage slot, so the prediction result does not leave the
per-request scope unpersisted. -/
theorem predictionPersisted_cex :
    (onSubmitFinish sPending (DetectOutcome.success dOK)).storage ≠ sPending.storage ∧
    (onSubmitFinish sPending (DetectOutcome.success dOK)).storage =
      some { models := "models-json", selection := "selection-json"
             finalLabel := "organic", finalConfidence := 87 } := by
  exact ⟨by decide, by decide⟩

/-- Claim C6 (amended): the prediction result is set exactly once from
the single response of a request, and it is not persisted by the
backend; however, when the response carries `models` and `selection`,
the client saves the comparison payload (per-model breakdown plus the
final label and confidence) to sessionStorage, where the Compare page
later loads it; responses without the breakdown, and failed requests,
leave the stored payload unchanged. -/
theorem predictionResult_per_request (s : UploadState) (label mu ms sel : String)
    (conf : ℚ) (o : DetectOutcome) (p : ComparePayload) (st : CompareState) :
    (onSubmitFinish s (DetectOutcome.success
        { label := label, confidence := conf, model_used := mu
          models := some ms, selection := some sel })).result = some (label, conf, mu) ∧
    (onSubmitFinish s (DetectOutcome.success
        { label := label, confidence := conf, model_used := mu
          models := some ms, selection := some sel })).storage =
      some { models := ms, selection := sel, finalLabel := label, finalConfidence := conf } ∧
    (onSubmitFinish s (DetectOutcome.success
        { label := label, confidence := conf, model_used := mu
          models := none, selection := none })).storage = s.storage ∧
    (o.isSuccess = false →
      (onSubmitFinish s o).storage = s.storage ∧ (onSubmitFinish s o).result = s.result) ∧
    (loadCompareResult none (some p) st).1.result = some p := by
  refine ⟨rfl, rfl, rfl, ?_, rfl⟩
  intro ho
  cases o with
  | success d => simp [DetectOutcome.isSuccess] at ho
  | netError m => exact ⟨rfl, rfl⟩
  | nonJson t => exact ⟨rfl, rfl⟩
  | httpError e => exact ⟨rfl, rfl⟩

/-- Witness for C6 (amended): a failed request leaves both the stored
payload and the displayed result unchanged. -/
theorem predictionResult_per_request_witness :
    (onSubmitFinish sPending (DetectOutcome.netError "boom")).storage = sPending.storage :=
  ((predictionResult_per_request sPending "x" "y" "m" "s" 0
    (DetectOutcome.netError "boom") ⟨"a", "b", "c", 0⟩ initCompareState).2.2.2.1 rfl).1

/-- Claim C7 counterexample: two comparison payloads naming the same
best model but differing in a validation accuracy render different
accuracy-chart bars, so the validation-accuracy metric serves a
display role beyond the model-selection lookup. -/
theorem accuracyDisplayRole_cex :
    p0.best_name = q0.best_name ∧ chartAcc p0 ≠ chartAcc q0 ∧ ¬accOnlySelectionRole := by
  refine ⟨rfl, ?_, ?_⟩
  · intro h
    have h1 := congrArg Prod.fst h
    norm_num [chartAcc, p0, q0] at h1
  · intro h
    have h1 := congrArg Prod.fst (h p0 q0 rfl)
    norm_num [chartAcc, p0, q0] at h1

/-- Claim C7 (amended): the precomputed validation-accuracy metric is
used as the lookup for model selection, and it is additionally
rendered in the UI: the home-page chart displays each model's accuracy
times 100 (defaulting to 0 when absent) and the Compare page's
selection detail displays the three accuracies times 100. -/
theorem accuracyUsedForSelectionAndDisplay (a b c : ℚ) (nm : Option String) :
    chartAcc { cnn_accuracy := some a, svm_accuracy := some b, rf_accuracy := some c
               best_name := nm } = (a * 100, b * 100, c * 100) ∧
    chartAcc { cnn_accuracy := none, svm_accuracy := none, rf_accuracy := none
               best_name := nm } = (0, 0, 0) ∧
    detailAccLine a b c = (a * 100, b * 100, c * 100) ∧
    selectBest ⟨1, 0⟩ ⟨0, 1⟩ ⟨0, 1⟩ = ModelName.cnn := by
  refine ⟨rfl, ?_, rfl, by decide⟩
  simp [chartAcc]

/-- Claim C8: in every reachable state of the useBackendHealth hook,
`modelPresent` implies `online`: no sequence of check executions
produces a state with the model flag set while the backend is offline. -/
theorem health_modelPresent_implies_online (s : HealthState) (h : ReachableH s) :
    s.modelPresent = true → s.online = true := by
  induction h with
  | init => intro hm; simp [initHealthState] at hm
  | step o hr ih =>
    intro hm
    cases o with
    | netError => simp [check] at hm
    | response ok json =>
      cases ok
      · simp [check] at hm
      · cases json with
        | none => simp [check] at hm
        | some mp => simp [check]

/-- Witness for C8: after one successful check reporting the model
present, the reachable state has `modelPresent` and hence `online`. -/
theorem health_modelPresent_implies_online_witness :
    (check (FetchOutcome.response true (some true))).online = true :=
  health_modelPresent_implies_online _
    (ReachableH.step (FetchOutcome.response true (some true)) ReachableH.init) rfl

lemma caughtMessage_ne (m : String) : caughtMessage m ≠ "" := by
  unfold caughtMessage
  split_ifs with h
  · decide
  · exact h

lemma onSubmitFinish_fail (s : UploadState) (o : DetectOutcome) (h : o.isSuccess = false) :
    (onSubmitFinish s o).result = s.result ∧
    (onSubmitFinish s o).error = caughtMessage (thrownMessage o) := by
  cases o with
  | success d => simp [DetectOutcome.isSuccess] at h
  | netError m => refine ⟨?_, ?_⟩ <;> simp only [onSubmitFinish]
  | nonJson t => refine ⟨?_, ?_⟩ <;> simp only [onSubmitFinish]
  | httpError e => refine ⟨?_, ?_⟩ <;> simp only [onSubmitFinish]

lemma onSubmitFinish_success_error (s : UploadState) (d : DetectData) :
    (onSubmitFinish s (DetectOutcome.success d)).error = s.error := by
  obtain ⟨l, cf, mu, ms, sel⟩ := d
  cases ms <;> cases sel <;> simp only [onSubmitFinish]

/-- Claim C9: each submit clears the error and the result; after a
completed submit the error message and the displayed result are
mutually exclusive — a failed request leaves the result `none` and a
non-empty error, while a successful request leaves the error empty. -/
theorem upload_error_result_exclusive (s : UploadState) (o : DetectOutcome) :
    ((onSubmitStart s).result = none ∧ (s.file ≠ none → (onSubmitStart s).error = "")) ∧
    (s.file = none →
      (onSubmitStart s).error ≠ "" ∧ (onSubmitStart s).result = none) ∧
    (o.isSuccess = false →
      (onSubmitFinish (onSubmitStart s) o).result = none ∧
      (onSubmitFinish (onSubmitStart s) o).error ≠ "") ∧
    (s.file ≠ none → o.isSuccess = true →
      (onSubmitFinish (onSubmitStart s) o).error = "") := by
  refine ⟨⟨?_, ?_⟩, ?_, ?_, ?_⟩
  · cases hf : s.file <;> simp [onSubmitStart, hf]
  · intro hf
    cases hff : s.file
    · exact absurd hff hf
    · simp [onSubmitStart, hff]
  · intro hf
    simp [onSubmitStart, hf]
  · intro ho
    obtain ⟨h1, h2⟩ := onSubmitFinish_fail (onSubmitStart s) o ho
    refine ⟨?_, ?_⟩
    · rw [h1]
      cases hf : s.file <;> simp [onSubmitStart, hf]
    · rw [h2]
      exact caughtMessage_ne _
  · intro hf ho
    cases o with
    | success d =>
      rw [onSubmitFinish_success_error]
      cases hff : s.file
      · exact absurd hff hf
      · simp [onSubmitStart, hff]
    | netError m => simp [DetectOutcome.isSuccess] at ho
    | nonJson t => simp [DetectOutcome.isSuccess] at ho
    | httpError e => simp [DetectOutcome.isSuccess] at ho

/-- Witness for C9: a pending submit with a selected file that fails
with an HTTP error without a JSON error field ends with no result and
the generic non-empty error message. -/
theorem upload_error_result_exclusive_witness :
    (onSubmitFinish (onSubmitStart sPending) (DetectOutcome.httpError none)).result = none ∧
    (onSubmitFinish (onSubmitStart sPending) (DetectOutcome.httpError none)).error ≠ "" :=
  (upload_error_result_exclusive sPending (DetectOutcome.httpError none)).2.2.1 rfl

/-- Claim C10: in the Upload component, a file failing validation
resets the selected file to `none` and clears the preview, while the
Compare page's `onFile` leaves the previously selected file and
preview unchanged when the new file fails the checks. -/
theorem invalidFile_reset_vs_kept (s : UploadState) (st : CompareState) (f : JSFile)
    (hbad : validateFile (some f) ≠ "") :
    (applyFile s (some f)).file = none ∧ (applyFile s (some f)).preview = "" ∧
    ((onFile st (some f)).file = st.file ∧ (onFile st (some f)).preview = st.preview) := by
  refine ⟨?_, ?_, ?_⟩
  · unfold applyFile
    rw [if_pos hbad]
  · unfold applyFile
    rw [if_pos hbad]
  · unfold validateFile at hbad
    unfold onFile
    by_cases ht : ACCEPTED_TYPES.contains f.type
    · have htm : f.type ∈ ACCEPTED_TYPES := by simpa using ht
      by_cases hsz : f.size > MAX_BYTES
      · simp [ht, htm, hsz]
      · simp [ht, htm, hsz] at hbad
    · have htm : f.type ∉ ACCEPTED_TYPES := by simpa using ht
      simp [ht, htm]

/-- Witness for C10: a GIF fails validation; Upload clears the
selection, Compare keeps its previous state. -/
theorem invalidFile_reset_vs_kept_witness :
    (applyFile initUploadState (some gifFile)).file = none ∧
    (applyFile initUploadState (some gifFile)).preview = "" ∧
    ((onFile initCompareState (some gifFile)).file = initCompareState.file ∧
      (onFile initCompareState (some gifFile)).preview = initCompareState.preview) :=
  invalidFile_reset_vs_kept initUploadState initCompareState gifFile (by decide)

end MangoDetector
